import Mathlib

/-!
Verification development for the magnitude-retrieval core of
`astroARIADNE` (`Librarian.py`).  The Python class `Librarian` is shallowly
embedded here: its per-instance arrays (`used_filters`, `mags`, `mag_errs`)
become lists in a state record, the `CatalogWarning(x, n).warn()` side channel
becomes an append-only list of `(label, code)` pairs on the state, raised
Python exceptions become `Except.error`, and the class-level `catalogs`
dictionary — whose triple entries are one-shot `zip` iterators — becomes a
`Catalogs` record of remaining-triples lists that is threaded through and
consumed by iteration, exactly as a Python iterator is.
-/

namespace AstroARIADNE

/-- The fixed ordered band list `Librarian.filter_names`. -/
def filter_names : List String :=
  ["2MASS_H", "2MASS_J", "2MASS_Ks",
   "GROUND_JOHNSON_U", "GROUND_JOHNSON_V", "GROUND_JOHNSON_B",
   "GaiaDR2v2_G", "GaiaDR2v2_RP", "GaiaDR2v2_BP",
   "PS1_g", "PS1_i", "PS1_r", "PS1_w", "PS1_y", "PS1_z",
   "SDSS_g", "SDSS_i", "SDSS_r", "SDSS_u", "SDSS_z",
   "WISE_RSR_W1", "WISE_RSR_W2", "GALEX_FUV", "GALEX_NUV"]

/-- Index lookup `sp.where(f == self.filter_names)[0]`: the band names are
pairwise distinct, so the index array is empty (`none`) or a singleton. -/
def bandIdx (f : String) : Option Nat :=
  filter_names.findIdx? (fun n => n == f)

/-- One `(magnitude-column, error-column, filter-band)` triple of a catalog
schema, i.e. one element produced by the `zip` in `Librarian.catalogs`. -/
structure Triple where
  m : String
  e : String
  f : String
deriving DecidableEq

/-- zip(__ascc_mags, __ascc_errs, __ascc_filters). -/
def ascc_triples : List Triple :=
  [⟨"Vmag", "e_Vmag", "GROUND_JOHNSON_V"⟩, ⟨"Bmag", "e_Bmag", "GROUND_JOHNSON_B"⟩,
   ⟨"Jmag", "e_Jmag", "2MASS_J"⟩, ⟨"Hmag", "e_Hmag", "2MASS_H"⟩,
   ⟨"Kmag", "e_Kmag", "2MASS_Ks"⟩]

/-- zip(__apass_mags, __apass_errs, __apass_filters). -/
def apass_triples : List Triple :=
  [⟨"Vmag", "e_Vmag", "GROUND_JOHNSON_V"⟩, ⟨"Bmag", "e_Bmag", "GROUND_JOHNSON_B"⟩,
   ⟨"g_mag", "e_g_mag", "SDSS_g"⟩, ⟨"r_mag", "e_r_mag", "SDSS_r"⟩,
   ⟨"i_mag", "e_i_mag", "SDSS_i"⟩]

/-- zip(__wise_mags, __wise_errs, __wise_filters). -/
def wise_triples : List Triple :=
  [⟨"W1mag", "e_W1mag", "WISE_RSR_W1"⟩, ⟨"W2mag", "e_W2mag", "WISE_RSR_W2"⟩]

/-- zip(__ps1_mags, __ps1_errs, __ps1_filters). -/
def ps1_triples : List Triple :=
  [⟨"gmag", "e_gmag", "PS1_g"⟩, ⟨"rmag", "e_rmag", "PS1_r"⟩,
   ⟨"imag", "e_imag", "PS1_i"⟩, ⟨"zmag", "e_zmag", "PS1_z"⟩,
   ⟨"ymag", "e_ymag", "PS1_y"⟩]

/-- zip(__gaia_mags, __gaia_errs, __gaia_filters). -/
def gaia_triples : List Triple :=
  [⟨"Gmag", "e_Gmag", "GaiaDR2v2_G"⟩, ⟨"BPmag", "e_BPmag", "GaiaDR2v2_BP"⟩,
   ⟨"RPmag", "e_RPmag", "GaiaDR2v2_RP"⟩]

/-- zip(__twomass_mags, __twomass_errs, __twomass_filters). -/
def twomass_triples : List Triple :=
  [⟨"Jmag", "e_Jmag", "2MASS_J"⟩, ⟨"Hmag", "e_Hmag", "2MASS_H"⟩,
   ⟨"Kmag", "e_Kmag", "2MASS_Ks"⟩]

/-- zip(__sdss_mags, __sdss_errs, __sdss_filters). -/
def sdss_triples : List Triple :=
  [⟨"umag", "e_umag", "SDSS_u"⟩, ⟨"gmag", "e_gmag", "SDSS_g"⟩,
   ⟨"rmag", "e_rmag", "SDSS_r"⟩, ⟨"imag", "e_imag", "SDSS_i"⟩,
   ⟨"zmag", "e_zmag", "SDSS_z"⟩]

/-- zip(__galex_mags, __galex_errs, __galex_filters). -/
def galex_triples : List Triple :=
  [⟨"FUV", "e_FUV", "GALEX_FUV"⟩, ⟨"NUV", "e_NUV", "GALEX_NUV"⟩]

/-- The remaining contents of the `zip` iterators stored in the class-level
`Librarian.catalogs` dictionary.  A `zip` object is a one-shot iterator: a
`for` loop over it consumes the elements it reads, and the class attribute is
shared by every `Librarian` instance of the process, so this record is state
that persists across runs, not immutable configuration. -/
structure Catalogs where
  ascc : List Triple
  apass : List Triple
  wise : List Triple
  ps1 : List Triple
  gaia : List Triple
  tmass : List Triple
  sdss : List Triple
  galex : List Triple
deriving DecidableEq

/-- The iterator contents at class-definition time. -/
def initCatalogs : Catalogs :=
  { ascc := ascc_triples, apass := apass_triples, wise := wise_triples,
    ps1 := ps1_triples, gaia := gaia_triples, tmass := twomass_triples,
    sdss := sdss_triples, galex := galex_triples }

/-- A value read from a selected sub-table column, as tested by
`_retrieve_from_cat`: the selection may be empty (an empty column, which
`sp.ma.is_masked` reports unmasked and `== 0` reports falsy), or the single
selected row's entry may be masked, or an actual number. -/
inductive Cell where
  | empty : Cell
  | masked : Cell
  | val : ℚ → Cell
deriving DecidableEq

/-- One row of a Vizier result table: `ident` gives the identifier columns
(compared as printed strings), `data` the magnitude and error columns, with
`none` standing for a masked entry. -/
structure TableRow where
  ident : String → String
  data : String → Option ℚ

abbrev Table := List TableRow

/-- The per-instance state of a `Librarian`, with the warning side channel
made explicit: `warnings` records every `CatalogWarning(x, n).warn()` call in
order as a `(first-argument, dictionary-key)` pair. -/
structure Librarian where
  used_filters : List Nat
  mags : List ℚ
  mag_errs : List ℚ
  verbose : Bool
  warnings : List (String × Nat)
deriving DecidableEq

/-- `CatalogWarning(x, n).warn()`. -/
def emit (s : Librarian) (w : String × Nat) : Librarian :=
  { s with warnings := s.warnings ++ [w] }

/-- The `sp.zeros` initialisation in `Librarian.__init__`: all 24 slots of
`used_filters`, `mags` and `mag_errs` start at zero. -/
def initLib (verbose : Bool) : Librarian :=
  { used_filters := List.replicate 24 0, mags := List.replicate 24 0,
    mag_errs := List.replicate 24 0, verbose := verbose, warnings := [] }

/-- Reading column `c` of a selected sub-table `rows` (`cat[m]` on the result
of a boolean mask).  Every reachable selection has at most one row, since the
identifier columns are unique keys; an empty selection yields `Cell.empty`. -/
def colCell (rows : Table) (c : String) : Cell :=
  match rows with
  | [] => Cell.empty
  | r :: _ =>
    match r.data c with
    | none => Cell.masked
    | some q => Cell.val q

/-- `self.used_filters[filt_idx] == 1` as used by both `_retrieve_from_cat`
and `_add_mags`; an empty index array (band not in `filter_names`) compares
falsy. -/
def bandUsed (s : Librarian) (f : String) : Bool :=
  match bandIdx f with
  | none => false
  | some i => s.used_filters.getD i 0 == 1

/-- `Librarian._add_mags`.  If the band is already used, nothing is written —
and although a `CatalogWarning(filt, 6)` object is constructed when verbose,
its `warn` method is never called, so nothing is emitted either.  Otherwise
`used_filters[i]` is set to 1 and then `mags[i]` and `mag_errs[i]` are
assigned; assigning an empty column (empty selection) into the single slot is
a numpy broadcast error, raised after the `used` write, which aborts the
caller (`Except.error`).  A masked scalar cannot reach the assignments from
`_retrieve_from_cat`, which filters masked values first. -/
def add_mags (s : Librarian) (mag er : Cell) (filt : String) :
    Except String Librarian :=
  match bandIdx filt with
  | none => Except.ok s
  | some i =>
    if s.used_filters.getD i 0 = 1 then
      Except.ok s
    else
      let s1 := { s with used_filters := s.used_filters.set i 1 }
      match mag with
      | Cell.empty => Except.error "ValueError"
      | Cell.masked => Except.error "ValueError"
      | Cell.val mq =>
        let s2 := { s1 with mags := s1.mags.set i mq }
        match er with
        | Cell.empty => Except.error "ValueError"
        | Cell.masked => Except.error "ValueError"
        | Cell.val ev => Except.ok { s2 with mag_errs := s2.mag_errs.set i ev }

/-- `Librarian._retrieve_from_cat(cat, name)`.  `rows` is the selected
sub-table; the triple list is the current content of the catalog's `zip`
iterator, and the returned list is what the iterator still holds afterwards
(an early `return` leaves the unread suffix in the iterator).  Each of the
four rejection branches is a `return`, ending the whole traversal:
already-used band (a `CatalogWarning(f, 6)` is constructed when verbose but
never warned, so nothing is emitted), masked magnitude (warn `(m, 2)`),
masked error (warn `(m, 3)`), error equal to zero (warn `(m, 4)`). -/
def retrieve_from_cat (rows : Table) (s : Librarian) (ts : List Triple) :
    Except String (Librarian × List Triple) :=
  match ts with
  | [] => Except.ok (s, [])
  | t :: rest =>
    if bandUsed s t.f then
      Except.ok (s, rest)
    else if colCell rows t.m = Cell.masked then
      Except.ok (emit s (t.m, 2), rest)
    else if colCell rows t.e = Cell.masked then
      Except.ok (emit s (t.m, 3), rest)
    else if colCell rows t.e = Cell.val 0 then
      Except.ok (emit s (t.m, 4), rest)
    else
      match add_mags s (colCell rows t.m) (colCell rows t.e) t.f with
      | Except.error msg => Except.error msg
      | Except.ok s2 => retrieve_from_cat rows s2 rest

/-- A single-column equality mask followed by row selection, the shape shared
by `_get_apass`, `_get_wise`, `_get_2mass`, `_get_sdss`, `_get_ps1`. -/
def selectEq (col idv : String) (cat : Table) : Table :=
  cat.filter (fun r => r.ident col == idv)

/-- The three-column conjunction mask of `_get_ascc`:
`(TYC1 == tyc1) * (TYC2 == tyc2) * (TYC3 == tyc3)`. -/
def asccMask (t1 t2 t3 : String) (r : TableRow) : Bool :=
  (r.ident "TYC1" == t1) && (r.ident "TYC2" == t2) && (r.ident "TYC3" == t3)

/-- Separator split on a character list, accumulator-style: the executable
model of Python's `split` with an explicit separator. -/
def splitCharAux (c : Char) : List Char → List Char → List (List Char)
  | acc, [] => [acc.reverse]
  | acc, x :: xs =>
    if x = c then acc.reverse :: splitCharAux c [] xs
    else splitCharAux c (x :: acc) xs

/-- Dash-separated decomposition of a composite identifier (the split on the
dash byte), with Python `split` semantics: always at least one part. -/
def splitDash (s : String) : List String :=
  (splitCharAux '-' [] s.toList).map fun l => String.mk l

/-- `Librarian._get_ascc`: the three-name unpacking of the split ASCC
identifier raises `ValueError` unless the split has exactly three parts;
otherwise the three-way mask selects the row and `_retrieve_from_cat` runs on
it. -/
def get_ascc (s : Librarian) (idv : String) (cat : Table) (ts : List Triple) :
    Except String (Librarian × List Triple) :=
  match splitDash idv with
  | [t1, t2, t3] => retrieve_from_cat (cat.filter (asccMask t1 t2 t3)) s ts
  | _ => Except.error "ValueError"

/-- `Librarian._get_apass`. -/
def get_apass (s : Librarian) (idv : String) (cat : Table) (ts : List Triple) :
    Except String (Librarian × List Triple) :=
  retrieve_from_cat (selectEq "recno" idv cat) s ts

/-- `Librarian._get_wise`. -/
def get_wise (s : Librarian) (idv : String) (cat : Table) (ts : List Triple) :
    Except String (Librarian × List Triple) :=
  retrieve_from_cat (selectEq "AllWISE" idv cat) s ts

/-- `Librarian._get_2mass` (defined in the source, but `get_magnitudes` has
no branch that calls it). -/
def get_2mass (s : Librarian) (idv : String) (cat : Table) (ts : List Triple) :
    Except String (Librarian × List Triple) :=
  retrieve_from_cat (selectEq "_2MASS" idv cat) s ts

/-- `Librarian._get_sdss`. -/
def get_sdss (s : Librarian) (idv : String) (cat : Table) (ts : List Triple) :
    Except String (Librarian × List Triple) :=
  retrieve_from_cat (selectEq "SDSS12" idv cat) s ts

/-- `Librarian._get_ps1`. -/
def get_ps1 (s : Librarian) (idv : String) (cat : Table) (ts : List Triple) :
    Except String (Librarian × List Triple) :=
  retrieve_from_cat (selectEq "objID" idv cat) s ts

/-- `Librarian._get_gaia`: the identifier is interpolated into the fixed
template — the words Gaia DR2, a space, then the id — before comparison with
the `DR2Name` column. -/
def get_gaia (s : Librarian) (idv : String) (cat : Table) (ts : List Triple) :
    Except String (Librarian × List Triple) :=
  retrieve_from_cat (selectEq "DR2Name" ("Gaia DR2 " ++ idv) cat) s ts

/-- The `CrossMatchIdentifiers` dictionary `self.ids` built by `gaia_query`:
keys ASCC, APASS, 2MASS, Pan-STARRS, SDSS, Wise, Gaia — and no GALEX key.
The no-match sentinel is the string `"skipped"`. -/
structure Ids where
  ascc : String
  apass : String
  tmass : String
  ps : String
  sdss : String
  wise : String
  gaia : String
deriving DecidableEq

/-- The results of the six `*_best_neighbour` cross-match queries issued by
`gaia_query`, keyed by the Gaia-side table name; `none` models an empty
result set (`len(r) == 0`). -/
structure XMatch where
  tycho2 : Option String
  panstarrs1 : Option String
  sdssdr9 : Option String
  allwise : Option String
  tmass : Option String
  apassdr9 : Option String

/-- One iteration of the `gaia_query` loop: a non-empty result stores the
identifier, an empty one stores the sentinel `"skipped"` and emits a
`CatalogWarning(cat, 5)` only when verbose. -/
def xmStep (s : Librarian) (cat : String) (r : Option String) :
    Librarian × String :=
  match r with
  | some v => (s, v)
  | none => ((if s.verbose then emit s (cat, 5) else s), "skipped")

/-- `Librarian.gaia_query`: the loop runs over the Gaia cross-match tables in
source order tycho2, panstarrs1, sdssdr9, allwise, tmass, apassdr9; the Gaia
entry is always the Gaia id itself. -/
def gaia_query (s : Librarian) (g_id : String) (xm : XMatch) :
    Librarian × Ids :=
  let p1 := xmStep s "ASCC" xm.tycho2
  let p2 := xmStep p1.1 "Pan-STARRS" xm.panstarrs1
  let p3 := xmStep p2.1 "SDSS" xm.sdssdr9
  let p4 := xmStep p3.1 "Wise" xm.allwise
  let p5 := xmStep p4.1 "2MASS" xm.tmass
  let p6 := xmStep p5.1 "APASS" xm.apassdr9
  (p6.1,
   { ascc := p1.2, apass := p6.2, tmass := p5.2, ps := p2.2,
     sdss := p3.2, wise := p4.2, gaia := g_id })

/-- The shared head of the `get_magnitudes` loop body for a catalog that has
an `ids` entry: a `"skipped"` identifier is passed over silently; a missing
table (`cats[key]` raising `TypeError`) emits `CatalogWarning(c, 5).warn()`
unconditionally and moves on; otherwise the catalog-specific action runs on
the table, with its exceptions uncaught. -/
def dispatchCat (s : Librarian) (cname key idv : String)
    (resp : String → Option Table)
    (act : Librarian → Table → List Triple →
      Except String (Librarian × List Triple))
    (ts : List Triple) : Except String (Librarian × List Triple) :=
  if idv = "skipped" then Except.ok (s, ts)
  else
    match resp key with
    | none => Except.ok (emit s (cname, 5), ts)
    | some cat => act s cat ts

/-- Repack a per-catalog result, storing the iterator remainder back into the
class-level `Catalogs` record. -/
def liftStep (x : Except String (Librarian × List Triple))
    (g : List Triple → Catalogs) : Except String (Librarian × Catalogs) :=
  match x with
  | Except.error m => Except.error m
  | Except.ok (s, rest) => Except.ok (s, g rest)

/-- The `get_magnitudes` loop body for ASCC. -/
def asccStep (s : Librarian) (cfg : Catalogs) (ids : Ids)
    (resp : String → Option Table) : Except String (Librarian × Catalogs) :=
  liftStep
    (dispatchCat s "ASCC" "I/280B/ascc" ids.ascc resp
      (fun s cat ts => get_ascc s ids.ascc cat ts) cfg.ascc)
    (fun rest => { cfg with ascc := rest })

/-- The `get_magnitudes` loop body for APASS. -/
def apassStep (s : Librarian) (cfg : Catalogs) (ids : Ids)
    (resp : String → Option Table) : Except String (Librarian × Catalogs) :=
  liftStep
    (dispatchCat s "APASS" "II/336/apass9" ids.apass resp
      (fun s cat ts => get_apass s ids.apass cat ts) cfg.apass)
    (fun rest => { cfg with apass := rest })

/-- The `get_magnitudes` loop body for Wise. -/
def wiseStep (s : Librarian) (cfg : Catalogs) (ids : Ids)
    (resp : String → Option Table) : Except String (Librarian × Catalogs) :=
  liftStep
    (dispatchCat s "Wise" "II/328/allwise" ids.wise resp
      (fun s cat ts => get_wise s ids.wise cat ts) cfg.wise)
    (fun rest => { cfg with wise := rest })

/-- The `get_magnitudes` loop body for Pan-STARRS. -/
def ps1Step (s : Librarian) (cfg : Catalogs) (ids : Ids)
    (resp : String → Option Table) : Except String (Librarian × Catalogs) :=
  liftStep
    (dispatchCat s "Pan-STARRS" "II/349/ps1" ids.ps resp
      (fun s cat ts => get_ps1 s ids.ps cat ts) cfg.ps1)
    (fun rest => { cfg with ps1 := rest })

/-- The `get_magnitudes` loop body for Gaia. -/
def gaiaStep (s : Librarian) (cfg : Catalogs) (ids : Ids)
    (resp : String → Option Table) : Except String (Librarian × Catalogs) :=
  liftStep
    (dispatchCat s "Gaia" "I/345/gaia2" ids.gaia resp
      (fun s cat ts => get_gaia s ids.gaia cat ts) cfg.gaia)
    (fun rest => { cfg with gaia := rest })

/-- The `get_magnitudes` loop body for 2MASS: the identifier and table checks
run, but the conditional ladder of catalog-name comparisons in
`get_magnitudes` has no 2MASS branch, so no selector runs and the loop falls
through; the
2MASS `zip` iterator is bound to the dead variable `current` and stays
unconsumed. -/
def tmassStep (s : Librarian) (cfg : Catalogs) (ids : Ids)
    (resp : String → Option Table) : Except String (Librarian × Catalogs) :=
  liftStep
    (dispatchCat s "2MASS" "II/246/out" ids.tmass resp
      (fun s _ ts => Except.ok (s, ts)) cfg.tmass)
    (fun rest => { cfg with tmass := rest })

/-- The `get_magnitudes` loop body for SDSS. -/
def sdssStep (s : Librarian) (cfg : Catalogs) (ids : Ids)
    (resp : String → Option Table) : Except String (Librarian × Catalogs) :=
  liftStep
    (dispatchCat s "SDSS" "V/147/sdss12" ids.sdss resp
      (fun s cat ts => get_sdss s ids.sdss cat ts) cfg.sdss)
    (fun rest => { cfg with sdss := rest })

/-- The `get_magnitudes` loop body for GALEX, the one catalog with no `ids`
entry: the `else` branch calls `self._retrieve_from_cat(current_cat)` without
the required `name` argument, so either the table lookup or that call raises
`TypeError`; the surrounding `except Exception` swallows it and emits
`CatalogWarning(c, 5)` only when verbose.  Nothing is written and the GALEX
iterator is untouched. -/
def galexStep (s : Librarian) (cfg : Catalogs)
    (resp : String → Option Table) : Except String (Librarian × Catalogs) :=
  Except.ok ((if s.verbose then emit s ("GALEX", 5) else s), cfg)

/-- Exception-propagating sequencing of the loop iterations. -/
def andThen (x : Except String (Librarian × Catalogs))
    (f : Librarian → Catalogs → Except String (Librarian × Catalogs)) :
    Except String (Librarian × Catalogs) :=
  match x with
  | Except.error m => Except.error m
  | Except.ok (s, cfg) => f s cfg

/-- `Librarian.get_magnitudes`: one pass over the catalogs in dictionary
insertion order ASCC, APASS, Wise, Pan-STARRS, Gaia, 2MASS, SDSS, GALEX.
`resp` is the Vizier response keyed by the catalog table keys.  The result
also carries the post-run contents of the class-level `zip` iterators. -/
def get_magnitudes (s : Librarian) (cfg : Catalogs) (ids : Ids)
    (resp : String → Option Table) : Except String (Librarian × Catalogs) :=
  andThen (asccStep s cfg ids resp) (fun s cfg =>
  andThen (apassStep s cfg ids resp) (fun s cfg =>
  andThen (wiseStep s cfg ids resp) (fun s cfg =>
  andThen (ps1Step s cfg ids resp) (fun s cfg =>
  andThen (gaiaStep s cfg ids resp) (fun s cfg =>
  andThen (tmassStep s cfg ids resp) (fun s cfg =>
  andThen (sdssStep s cfg ids resp) (fun s cfg =>
  galexStep s cfg resp)))))))

/-- The `(used, magnitude, error)` projection of the state: the
MeasurementVector proper, without the warning channel. -/
def vec (s : Librarian) : List Nat × List ℚ × List ℚ :=
  (s.used_filters, s.mags, s.mag_errs)

/-! Helper lemmas about `List.set` and `List.getD`. -/

theorem getD_set_self {α : Type} (l : List α) (i : Nat) (a d : α)
    (h : i < l.length) : (l.set i a).getD i d = a := by
  rw [List.getD_eq_getElem?_getD, List.getElem?_set_self h]
  rfl

theorem getD_set_ne {α : Type} (l : List α) (i j : Nat) (a d : α)
    (h : i ≠ j) : (l.set i a).getD j d = l.getD j d := by
  rw [List.getD_eq_getElem?_getD, List.getElem?_set_ne h,
    ← List.getD_eq_getElem?_getD]

/-- C1: `_add_mags` is the first-writer-wins choke point.  With scalar
magnitude and error values: if the band's slot is already used, the call
changes nothing (used, magnitude and error are all left alone); otherwise it
sets `used_filters[i] = 1` and writes the given magnitude and error there.
In either case a slot that was used stays used, so within one run each band
is populated by at most one catalog and `used` never falls back to 0. -/
theorem add_mags_first_writer (s : Librarian) (mag er : ℚ) (f : String)
    (i : Nat) (hi : bandIdx f = some i) :
    (s.used_filters.getD i 0 = 1 →
      add_mags s (Cell.val mag) (Cell.val er) f = Except.ok s) ∧
    (s.used_filters.getD i 0 ≠ 1 →
      add_mags s (Cell.val mag) (Cell.val er) f =
        Except.ok { s with used_filters := s.used_filters.set i 1,
                           mags := s.mags.set i mag,
                           mag_errs := s.mag_errs.set i er }) ∧
    (∀ (s2 : Librarian) (j : Nat),
      add_mags s (Cell.val mag) (Cell.val er) f = Except.ok s2 →
      s.used_filters.getD j 0 = 1 → s2.used_filters.getD j 0 = 1) := by
  refine ⟨?_, ?_, ?_⟩
  · intro h
    simp only [add_mags, hi]
    rw [if_pos h]
  · intro h
    simp only [add_mags, hi]
    rw [if_neg h]
  · intro s2 j h hj
    simp only [add_mags, hi] at h
    by_cases hu : s.used_filters.getD i 0 = 1
    · rw [if_pos hu] at h
      injection h with h2
      subst h2
      exact hj
    · rw [if_neg hu] at h
      injection h with h2
      subst h2
      show (s.used_filters.set i 1).getD j 0 = 1
      by_cases hij : i = j
      · subst hij
        by_cases hlen : i < s.used_filters.length
        · exact getD_set_self _ _ _ _ hlen
        · rw [List.set_eq_of_length_le (Nat.le_of_not_lt hlen)]
          exact hj
      · rw [getD_set_ne _ _ _ _ _ hij]
        exact hj

/-- Witness for `add_mags_first_writer` on the fresh state and band 0. -/
theorem add_mags_first_writer_witness :
    add_mags (initLib true) (Cell.val 10) (Cell.val 1) "2MASS_H" =
      Except.ok { initLib true with
                    used_filters := (initLib true).used_filters.set 0 1,
                    mags := (initLib true).mags.set 0 10,
                    mag_errs := (initLib true).mag_errs.set 0 1 } :=
  (add_mags_first_writer (initLib true) 10 1 "2MASS_H" 0 (by rfl)).2.1
    (by decide)

/-- C2 (amended): each of the three validity rejections in
`_retrieve_from_cat` — masked magnitude, masked error, error equal to zero —
emits its warning and then `return`s, ending the traversal of the catalog's
remaining triples rather than continuing with the next triple. -/
theorem retrieve_masked_stops (s : Librarian) (rows : Table) (t : Triple)
    (rest : List Triple) (hu : bandUsed s t.f = false) :
    (colCell rows t.m = Cell.masked →
      retrieve_from_cat rows s (t :: rest) =
        Except.ok (emit s (t.m, 2), rest)) ∧
    (colCell rows t.m ≠ Cell.masked → colCell rows t.e = Cell.masked →
      retrieve_from_cat rows s (t :: rest) =
        Except.ok (emit s (t.m, 3), rest)) ∧
    (colCell rows t.m ≠ Cell.masked → colCell rows t.e = Cell.val 0 →
      retrieve_from_cat rows s (t :: rest) =
        Except.ok (emit s (t.m, 4), rest)) := by
  refine ⟨?_, ?_, ?_⟩
  · intro h1
    simp [retrieve_from_cat, hu, h1]
  · intro h1 h2
    simp [retrieve_from_cat, hu, h1, h2]
  · intro h1 h2
    have h3 : colCell rows t.e ≠ Cell.masked := by
      rw [h2]
      intro hc
      exact Cell.noConfusion hc
    simp [retrieve_from_cat, hu, h1, h2, h3]

/-- The two-triple schema slice used to exercise the early-return behavior:
a masked J magnitude followed by a perfectly valid H triple. -/
def tsC2 : List Triple :=
  [⟨"Jmag", "e_Jmag", "2MASS_J"⟩, ⟨"Hmag", "e_Hmag", "2MASS_H"⟩]

/-- A selected row whose `Jmag` is masked while `Hmag`/`e_Hmag` are valid. -/
def rowC2 : TableRow :=
  { ident := fun _ => "",
    data := fun c =>
      if c = "Hmag" then some 10 else if c = "e_Hmag" then some 1 else none }

/-- Counterexample to C2 as stated: after the masked-magnitude rejection of
the first triple, the second, fully valid triple of the same catalog is not
processed — its band stays unused and the triple is left, unread, in the
iterator — so the extractor does not continue with the remaining triples. -/
theorem retrieve_masked_stops_cx :
    retrieve_from_cat [rowC2] (initLib true) tsC2 =
      Except.ok (emit (initLib true) ("Jmag", 2),
        [⟨"Hmag", "e_Hmag", "2MASS_H"⟩]) ∧
    bandUsed (emit (initLib true) ("Jmag", 2)) "2MASS_H" = false := by
  exact ⟨rfl, rfl⟩

/-- Witness for `retrieve_masked_stops` at the concrete masked row. -/
theorem retrieve_masked_stops_witness :
    retrieve_from_cat [rowC2] (initLib false) tsC2 =
      Except.ok (emit (initLib false) ("Jmag", 2),
        [⟨"Hmag", "e_Hmag", "2MASS_H"⟩]) :=
  (retrieve_masked_stops (initLib false) [rowC2] ⟨"Jmag", "e_Jmag", "2MASS_J"⟩
    [⟨"Hmag", "e_Hmag", "2MASS_H"⟩] (by decide)).1 (by decide)

/-- C4 (amended): when the head triple's band is already used,
`_retrieve_from_cat` stops the whole catalog (early `return`), but the state
is returned entirely unchanged: the `CatalogWarning(f, 6)` object is only
constructed — and only when verbose — and its `warn` method is never called,
so no DuplicateBand warning is ever emitted. -/
theorem retrieve_dup_stops (s : Librarian) (rows : Table) (t : Triple)
    (rest : List Triple) (hu : bandUsed s t.f = true) :
    retrieve_from_cat rows s (t :: rest) = Except.ok (s, rest) := by
  simp [retrieve_from_cat, hu]

/-- A state in which band `2MASS_J` (index 1) is already populated, with the
verbose flag on and no warning emitted yet. -/
def sDup : Librarian :=
  { used_filters := (List.replicate 24 0).set 1 1,
    mags := (List.replicate 24 (0 : ℚ)).set 1 9,
    mag_errs := (List.replicate 24 (0 : ℚ)).set 1 1,
    verbose := true, warnings := [] }

/-- A row carrying valid values for both triples of `tsC2`. -/
def rowDup : TableRow :=
  { ident := fun _ => "",
    data := fun c =>
      if c = "Jmag" then some 10 else if c = "e_Jmag" then some 1
      else if c = "Hmag" then some 11 else if c = "e_Hmag" then some 1
      else none }

/-- Counterexample to C4 as stated: a duplicate-band encounter (band
`2MASS_J` already used, verbose on) stops the catalog, but the warning list
is left empty — no DuplicateBand warning is emitted, contrary to the claim
that one is emitted on every duplicate encounter. -/
theorem retrieve_dup_cx :
    retrieve_from_cat [rowDup] sDup tsC2 =
      Except.ok (sDup, [⟨"Hmag", "e_Hmag", "2MASS_H"⟩]) ∧
    sDup.verbose = true ∧ sDup.warnings = [] := by
  exact ⟨rfl, rfl, rfl⟩

/-- Witness for `retrieve_dup_stops` at the concrete duplicate state. -/
theorem retrieve_dup_stops_witness :
    retrieve_from_cat [rowDup] sDup tsC2 =
      Except.ok (sDup, [⟨"Hmag", "e_Hmag", "2MASS_H"⟩]) :=
  retrieve_dup_stops sDup [rowDup] ⟨"Jmag", "e_Jmag", "2MASS_J"⟩
    [⟨"Hmag", "e_Hmag", "2MASS_H"⟩] (by decide)

/-- C9: the ASCC selector decomposes the composite identifier into its three
dash-separated parts and a row is selected if and only if its `TYC1`, `TYC2`
and `TYC3` columns simultaneously equal those parts; agreeing on only two of
the three is not enough. -/
theorem ascc_select_iff (s : Librarian) (idv : String) (cat : Table)
    (ts : List Triple) (t1 t2 t3 : String)
    (h : splitDash idv = [t1, t2, t3]) :
    get_ascc s idv cat ts =
      retrieve_from_cat (cat.filter (asccMask t1 t2 t3)) s ts ∧
    ∀ r ∈ cat, (r ∈ cat.filter (asccMask t1 t2 t3) ↔
      (r.ident "TYC1" = t1 ∧ r.ident "TYC2" = t2 ∧ r.ident "TYC3" = t3)) := by
  constructor
  · simp only [get_ascc, h]
  · intro r hr
    rw [List.mem_filter]
    simp [asccMask, hr, and_assoc]

/-- A table row matching the first two Tycho-2 components of `1-2-3` but not
the third. -/
def rowC9 : TableRow :=
  { ident := fun c =>
      if c = "TYC1" then "1" else if c = "TYC2" then "2" else "9",
    data := fun _ => none }

/-- Witness for `ascc_select_iff`: the row agreeing on only two of the three
components of the identifier `1-2-3` is not selected. -/
theorem ascc_select_iff_witness :
    rowC9 ∉ List.filter (asccMask "1" "2" "3") [rowC9] :=
  fun hmem =>
    absurd
      (((ascc_select_iff (initLib true) "1-2-3" [rowC9] [] "1" "2" "3"
        (by decide)).2 rowC9 (by simp)).mp hmem)
      (by decide)

/-- Forgetting the warning channel and the error message: the
MeasurementVector part of a run result, when the run terminated normally. -/
def vecOfResult (x : Except String (Librarian × Catalogs)) :
    Option ((List Nat × List ℚ × List ℚ) × Catalogs) :=
  match x with
  | Except.error _ => none
  | Except.ok (s, cfg) => some (vec s, cfg)

/-- C10: whatever the identifiers, response tables and state, the 2MASS loop
body (which has no dispatch branch, so `_get_2mass` is never invoked) and the
GALEX loop body (whose `_retrieve_from_cat(current_cat)` call omits the
required `name` argument and always raises into the surrounding handler)
terminate normally, write nothing into the MeasurementVector, and leave the
catalog iterators untouched. -/
theorem tmass_galex_inert (s : Librarian) (cfg : Catalogs) (ids : Ids)
    (resp : String → Option Table) :
    vecOfResult (tmassStep s cfg ids resp) = some (vec s, cfg) ∧
    vecOfResult (galexStep s cfg resp) = some (vec s, cfg) := by
  constructor
  · unfold tmassStep dispatchCat
    by_cases h : ids.tmass = "skipped"
    · rw [if_pos h]
      rfl
    · rw [if_neg h]
      cases resp "II/246/out" <;> rfl
  · unfold galexStep
    by_cases h : s.verbose = true
    · rw [if_pos h]
      rfl
    · rw [if_neg h]
      rfl

/-- C7 (amended), for every catalog with a cross-match entry: an empty
cross-match result makes `gaia_query` store the sentinel `"skipped"` for that
catalog and emit its `(catalog, 5)` warning only when verbose — exactly one
when verbose, none otherwise — and a sentinel identifier makes that
catalog's `get_magnitudes` loop body a complete no-op (no vector writes, no
warnings, iterator untouched), for each of the seven steps that consult the
identifier mapping. -/
theorem noxmatch_skipped (v : Bool) (g : String) (xm : XMatch) :
    (xm.tycho2 = none →
      (gaia_query (initLib v) g xm).2.ascc = "skipped" ∧
      (gaia_query (initLib v) g xm).1.warnings.count ("ASCC", 5)
        = if v then 1 else 0) ∧
    (xm.panstarrs1 = none →
      (gaia_query (initLib v) g xm).2.ps = "skipped" ∧
      (gaia_query (initLib v) g xm).1.warnings.count ("Pan-STARRS", 5)
        = if v then 1 else 0) ∧
    (xm.sdssdr9 = none →
      (gaia_query (initLib v) g xm).2.sdss = "skipped" ∧
      (gaia_query (initLib v) g xm).1.warnings.count ("SDSS", 5)
        = if v then 1 else 0) ∧
    (xm.allwise = none →
      (gaia_query (initLib v) g xm).2.wise = "skipped" ∧
      (gaia_query (initLib v) g xm).1.warnings.count ("Wise", 5)
        = if v then 1 else 0) ∧
    (xm.tmass = none →
      (gaia_query (initLib v) g xm).2.tmass = "skipped" ∧
      (gaia_query (initLib v) g xm).1.warnings.count ("2MASS", 5)
        = if v then 1 else 0) ∧
    (xm.apassdr9 = none →
      (gaia_query (initLib v) g xm).2.apass = "skipped" ∧
      (gaia_query (initLib v) g xm).1.warnings.count ("APASS", 5)
        = if v then 1 else 0) ∧
    (∀ (s : Librarian) (cfg : Catalogs) (ids : Ids)
      (resp : String → Option Table),
      (ids.ascc = "skipped" →
        asccStep s cfg ids resp = Except.ok (s, cfg)) ∧
      (ids.apass = "skipped" →
        apassStep s cfg ids resp = Except.ok (s, cfg)) ∧
      (ids.wise = "skipped" →
        wiseStep s cfg ids resp = Except.ok (s, cfg)) ∧
      (ids.ps = "skipped" →
        ps1Step s cfg ids resp = Except.ok (s, cfg)) ∧
      (ids.gaia = "skipped" →
        gaiaStep s cfg ids resp = Except.ok (s, cfg)) ∧
      (ids.tmass = "skipped" →
        tmassStep s cfg ids resp = Except.ok (s, cfg)) ∧
      (ids.sdss = "skipped" →
        sdssStep s cfg ids resp = Except.ok (s, cfg))) := by
  obtain ⟨t2, pp, sd, aw, tm, ap⟩ := xm
  refine ⟨?_, ?_, ?_, ?_, ?_, ?_, ?_⟩
  · intro h
    dsimp only at h
    subst h
    refine ⟨rfl, ?_⟩
    cases v <;> cases pp <;> cases sd <;> cases aw <;> cases tm <;>
      cases ap <;> simp [gaia_query, xmStep, emit, initLib]
  · intro h
    dsimp only at h
    subst h
    refine ⟨rfl, ?_⟩
    cases v <;> cases t2 <;> cases sd <;> cases aw <;> cases tm <;>
      cases ap <;> simp [gaia_query, xmStep, emit, initLib]
  · intro h
    dsimp only at h
    subst h
    refine ⟨rfl, ?_⟩
    cases v <;> cases t2 <;> cases pp <;> cases aw <;> cases tm <;>
      cases ap <;> simp [gaia_query, xmStep, emit, initLib]
  · intro h
    dsimp only at h
    subst h
    refine ⟨rfl, ?_⟩
    cases v <;> cases t2 <;> cases pp <;> cases sd <;> cases tm <;>
      cases ap <;> simp [gaia_query, xmStep, emit, initLib]
  · intro h
    dsimp only at h
    subst h
    refine ⟨rfl, ?_⟩
    cases v <;> cases t2 <;> cases pp <;> cases sd <;> cases aw <;>
      cases ap <;> simp [gaia_query, xmStep, emit, initLib]
  · intro h
    dsimp only at h
    subst h
    refine ⟨rfl, ?_⟩
    cases v <;> cases t2 <;> cases pp <;> cases sd <;> cases aw <;>
      cases tm <;> simp [gaia_query, xmStep, emit, initLib]
  · intro s cfg ids resp
    refine ⟨?_, ?_, ?_, ?_, ?_, ?_, ?_⟩
    · intro hsk
      unfold asccStep dispatchCat
      rw [if_pos hsk]
      rfl
    · intro hsk
      unfold apassStep dispatchCat
      rw [if_pos hsk]
      rfl
    · intro hsk
      unfold wiseStep dispatchCat
      rw [if_pos hsk]
      rfl
    · intro hsk
      unfold ps1Step dispatchCat
      rw [if_pos hsk]
      rfl
    · intro hsk
      unfold gaiaStep dispatchCat
      rw [if_pos hsk]
      rfl
    · intro hsk
      unfold tmassStep dispatchCat
      rw [if_pos hsk]
      rfl
    · intro hsk
      unfold sdssStep dispatchCat
      rw [if_pos hsk]
      rfl

/-- A cross-match response with no Tycho-2 counterpart and matches for every
other catalog. -/
def xmW : XMatch :=
  { tycho2 := none, panstarrs1 := some "p", sdssdr9 := some "s",
    allwise := some "w", tmass := some "t", apassdr9 := some "a" }

/-- A cross-match response with counterparts nowhere. -/
def xmNone : XMatch :=
  { tycho2 := none, panstarrs1 := none, sdssdr9 := none,
    allwise := none, tmass := none, apassdr9 := none }

/-- Witness for `noxmatch_skipped`: a verbose run with no Tycho-2 match and a
run with no Wise match, plus a sentinel APASS loop body evaluated as a
no-op. -/
theorem noxmatch_skipped_witness :
    ((gaia_query (initLib true) "g1" xmW).2.ascc = "skipped" ∧
      (gaia_query (initLib true) "g1" xmW).1.warnings.count ("ASCC", 5)
        = if true then 1 else 0) ∧
    ((gaia_query (initLib true) "g1" xmNone).2.wise = "skipped" ∧
      (gaia_query (initLib true) "g1" xmNone).1.warnings.count ("Wise", 5)
        = if true then 1 else 0) ∧
    apassStep (initLib true) initCatalogs
      (gaia_query (initLib true) "g1" xmNone).2 (fun _ => none) =
      Except.ok (initLib true, initCatalogs) :=
  ⟨(noxmatch_skipped true "g1" xmW).1 rfl,
   (noxmatch_skipped true "g1" xmNone).2.2.2.1 rfl,
   ((noxmatch_skipped true "g1" xmW).2.2.2.2.2.2 (initLib true) initCatalogs
     (gaia_query (initLib true) "g1" xmNone).2 (fun _ => none)).2.1 rfl⟩

/-- Counterexample to C7 as stated: with verbosity off, the catalog whose
cross-match identifier is the sentinel produces no warning at all — the
`CatalogWarning(cat, 5).warn()` call in `gaia_query` sits under
`if self.verbose` — so the NoCrossMatch warning is not produced in every run
regardless of the verbosity setting. -/
theorem noxmatch_cx :
    (gaia_query (initLib false) "g1" xmW).2.ascc = "skipped" ∧
    (gaia_query (initLib false) "g1" xmW).1.warnings = [] :=
  ⟨rfl, rfl⟩

/-- C8 (amended): the per-catalog containment is partial.  A missing table
degrades to a `(catalog, 5)` warning and the run moves on, but a failure
inside a catalog-specific row selector is not caught: an ASCC cross-match
identifier that does not split into exactly three dash-separated parts makes
`_get_ascc` raise, and the exception aborts the entire `get_magnitudes` run
with no MeasurementVector produced. -/
theorem ascc_failure_propagation (s : Librarian) (cfg : Catalogs) (ids : Ids)
    (resp : String → Option Table) :
    (ids.ascc ≠ "skipped" → resp "I/280B/ascc" = none →
      asccStep s cfg ids resp = Except.ok (emit s ("ASCC", 5), cfg)) ∧
    (∀ cat, ids.ascc ≠ "skipped" → resp "I/280B/ascc" = some cat →
      (splitDash ids.ascc).length ≠ 3 →
      get_magnitudes s cfg ids resp = Except.error "ValueError") := by
  constructor
  · intro h1 h2
    unfold asccStep dispatchCat
    rw [if_neg h1, h2]
    rfl
  · intro cat h1 h2 h3
    have hascc : asccStep s cfg ids resp = Except.error "ValueError" := by
      unfold asccStep dispatchCat get_ascc
      rw [if_neg h1, h2]
      rcases hsp : splitDash ids.ascc with _ | ⟨a, _ | ⟨b, _ | ⟨c, _ | ⟨d, tl⟩⟩⟩⟩
      · rfl
      · rfl
      · rfl
      · rw [hsp] at h3
        exact absurd rfl h3
      · rfl
    unfold get_magnitudes
    rw [hascc]
    rfl

/-- Identifiers whose ASCC entry has only two dash-separated components. -/
def idsC8 : Ids :=
  { ascc := "11-22", apass := "skipped", tmass := "skipped", ps := "skipped",
    sdss := "skipped", wise := "skipped", gaia := "g1" }

/-- A response carrying an (empty) ASCC table and nothing else. -/
def respC8 : String → Option Table :=
  fun k => if k = "I/280B/ascc" then some [] else none

/-- Counterexample to C8 as stated: with a two-component ASCC identifier and
the ASCC table present, the whole retrieval run aborts with an exception and
yields no MeasurementVector at all. -/
theorem run_abort_cx :
    get_magnitudes (initLib true) initCatalogs idsC8 respC8 =
      Except.error "ValueError" := rfl

/-- Witness for `ascc_failure_propagation` at the malformed identifier. -/
theorem ascc_failure_propagation_witness :
    get_magnitudes (initLib false) initCatalogs idsC8 respC8 =
      Except.error "ValueError" :=
  (ascc_failure_propagation (initLib false) initCatalogs idsC8 respC8).2
    [] (by decide) rfl (by decide)

/-- C6 (amended): for the six catalogs that the conditional ladder actually
dispatches — ASCC, APASS, Wise, Pan-STARRS, Gaia, SDSS — a non-sentinel
identifier together with a present table routes the loop body into the
catalog's row selector followed by `_retrieve_from_cat`, accumulating into
the MeasurementVector; 2MASS and GALEX are missing from the ladder (see the
C10 theorem), so the routing does not hold for every catalog of the schema
table. -/
theorem dispatch_six (s : Librarian) (cfg : Catalogs) (ids : Ids)
    (resp : String → Option Table) (cat : Table) :
    (ids.ascc ≠ "skipped" → resp "I/280B/ascc" = some cat →
      asccStep s cfg ids resp =
        liftStep (get_ascc s ids.ascc cat cfg.ascc)
          (fun rest => { cfg with ascc := rest })) ∧
    (ids.apass ≠ "skipped" → resp "II/336/apass9" = some cat →
      apassStep s cfg ids resp =
        liftStep (get_apass s ids.apass cat cfg.apass)
          (fun rest => { cfg with apass := rest })) ∧
    (ids.wise ≠ "skipped" → resp "II/328/allwise" = some cat →
      wiseStep s cfg ids resp =
        liftStep (get_wise s ids.wise cat cfg.wise)
          (fun rest => { cfg with wise := rest })) ∧
    (ids.ps ≠ "skipped" → resp "II/349/ps1" = some cat →
      ps1Step s cfg ids resp =
        liftStep (get_ps1 s ids.ps cat cfg.ps1)
          (fun rest => { cfg with ps1 := rest })) ∧
    (ids.gaia ≠ "skipped" → resp "I/345/gaia2" = some cat →
      gaiaStep s cfg ids resp =
        liftStep (get_gaia s ids.gaia cat cfg.gaia)
          (fun rest => { cfg with gaia := rest })) ∧
    (ids.sdss ≠ "skipped" → resp "V/147/sdss12" = some cat →
      sdssStep s cfg ids resp =
        liftStep (get_sdss s ids.sdss cat cfg.sdss)
          (fun rest => { cfg with sdss := rest })) := by
  refine ⟨?_, ?_, ?_, ?_, ?_, ?_⟩ <;> intro h1 h2 <;>
    simp only [asccStep, apassStep, wiseStep, ps1Step, gaiaStep, sdssStep,
      dispatchCat] <;>
    rw [if_neg h1, h2]

/-- Identifiers with only an APASS match. -/
def idsW6 : Ids :=
  { ascc := "skipped", apass := "7", tmass := "skipped", ps := "skipped",
    sdss := "skipped", wise := "skipped", gaia := "g1" }

/-- A response carrying an (empty) APASS table and nothing else. -/
def respW6 : String → Option Table :=
  fun k => if k = "II/336/apass9" then some [] else none

/-- Witness for `dispatch_six` on the APASS conjunct. -/
theorem dispatch_six_witness :
    apassStep (initLib true) initCatalogs idsW6 respW6 =
      liftStep (get_apass (initLib true) idsW6.apass [] initCatalogs.apass)
        (fun rest => { initCatalogs with apass := rest }) :=
  (dispatch_six (initLib true) initCatalogs idsW6 respW6 []).2.1
    (by decide) rfl

/-- Identifiers with a genuine 2MASS match (and a Gaia id, as every run has)
but nothing else. -/
def idsC6 : Ids :=
  { ascc := "skipped", apass := "skipped", tmass := "00000000+0000000",
    ps := "skipped", sdss := "skipped", wise := "skipped", gaia := "g1" }

/-- A 2MASS table row whose `_2MASS` identifier matches `idsC6.tmass` and
whose J, H, K magnitudes and errors are all present and valid. -/
def rowT : TableRow :=
  { ident := fun c => if c = "_2MASS" then "00000000+0000000" else "",
    data := fun c =>
      if c = "Jmag" then some 10 else if c = "e_Jmag" then some 1
      else if c = "Hmag" then some 11 else if c = "e_Hmag" then some 1
      else if c = "Kmag" then some 12 else if c = "e_Kmag" then some 1
      else none }

/-- A response carrying the matching 2MASS table and nothing else. -/
def respC6 : String → Option Table :=
  fun k => if k = "II/246/out" then some [rowT] else none

/-- Counterexample to C6 as stated: 2MASS is in the Catalog Schema Table,
its identifier is not the sentinel, and its table is present with a matching
row of valid measurements, yet the run accumulates nothing — the final state
is the initial vector plus only the Gaia missing-table warning, and the
2MASS J band is still unused, because the conditional ladder has no 2MASS
branch. -/
theorem dispatch_2mass_cx :
    get_magnitudes (initLib false) initCatalogs idsC6 respC6 =
      Except.ok (emit (initLib false) ("Gaia", 5), initCatalogs) ∧
    idsC6.tmass ≠ "skipped" ∧ respC6 "II/246/out" = some [rowT] ∧
    bandUsed (emit (initLib false) ("Gaia", 5)) "2MASS_J" = false := by
  exact ⟨rfl, by decide, rfl, rfl⟩

/-- Identifiers for a run in which only Gaia matches (the Gaia entry always
holds the Gaia id itself). -/
def idsC5 : Ids :=
  { ascc := "skipped", apass := "skipped", tmass := "skipped", ps := "skipped",
    sdss := "skipped", wise := "skipped", gaia := "g1" }

/-- A Gaia table row whose `DR2Name` matches the template `Gaia DR2 g1` and
whose three magnitudes and errors are valid. -/
def rowG : TableRow :=
  { ident := fun c => if c = "DR2Name" then "Gaia DR2 g1" else "",
    data := fun c =>
      if c = "Gmag" then some 10 else if c = "e_Gmag" then some 1
      else if c = "BPmag" then some 11 else if c = "e_BPmag" then some 1
      else if c = "RPmag" then some 9 else if c = "e_RPmag" then some 1
      else none }

/-- A response carrying the Gaia table and nothing else. -/
def respC5 : String → Option Table :=
  fun k => if k = "I/345/gaia2" then some [rowG] else none

/-- The state after the first run over `respC5`: the three Gaia bands
(indices 6, 8, 7 in traversal order) are populated. -/
def libA : Librarian :=
  { used_filters := (((List.replicate 24 0).set 6 1).set 8 1).set 7 1,
    mags := (((List.replicate 24 (0 : ℚ)).set 6 10).set 8 11).set 7 9,
    mag_errs := (((List.replicate 24 (0 : ℚ)).set 6 1).set 8 1).set 7 1,
    verbose := false, warnings := [] }

/-- The class-level iterator state after the first run: the Gaia `zip` has
been fully consumed. -/
def cfgA : Catalogs := { initCatalogs with gaia := [] }

/-- C5 (code bug): re-running `get_magnitudes` with the identical
CrossMatchIdentifiers and tables is not idempotent.  The first run populates
the three Gaia bands and, as a side effect, exhausts the class-level
`zip(__gaia_mags, __gaia_errs, __gaia_filters)` iterator stored in
`Librarian.catalogs`; the second run (a fresh instance, same process) then
iterates an empty iterator, writes nothing, and returns an all-unused
MeasurementVector — not bit-identical to the first run's. -/
theorem rerun_not_idempotent :
    get_magnitudes (initLib false) initCatalogs idsC5 respC5 =
      Except.ok (libA, cfgA) ∧
    get_magnitudes (initLib false) cfgA idsC5 respC5 =
      Except.ok (initLib false, cfgA) ∧
    vec libA ≠ vec (initLib false) := by
  exact ⟨rfl, rfl, by decide⟩

/-- The validator only rejects an error value that equals zero exactly, so
what reaches `_add_mags` has nonzero — not necessarily positive — error.
`ErrInv` is the resulting state invariant: parallel lengths, and every
populated slot carries a nonzero error. -/
def ErrInv (s : Librarian) : Prop :=
  s.used_filters.length = s.mag_errs.length ∧
  ∀ i, s.used_filters.getD i 0 = 1 → s.mag_errs.getD i 0 ≠ 0

theorem errInv_init (v : Bool) : ErrInv (initLib v) := by
  constructor
  · rfl
  · intro i hi
    have hi' : (List.replicate 24 (0 : Nat)).getD i 0 = 1 := hi
    rcases Nat.lt_or_ge i 24 with hlt | hge
    · rw [List.getD_eq_getElem?_getD, List.getElem?_replicate] at hi'
      simp [hlt] at hi'
    · rw [List.getD_eq_default _ _ (by simpa using hge)] at hi'
      exact absurd hi' (by decide)

theorem errInv_emit (s : Librarian) (w : String × Nat) (h : ErrInv s) :
    ErrInv (emit s w) := h

theorem errInv_add_mags (s : Librarian) (mag er : Cell) (f : String)
    (s2 : Librarian) (her : er ≠ Cell.val 0)
    (h : add_mags s mag er f = Except.ok s2) (hinv : ErrInv s) :
    ErrInv s2 := by
  unfold add_mags at h
  split at h
  · injection h with h1
    subst h1
    exact hinv
  · rename_i i hb
    split at h
    · injection h with h1
      subst h1
      exact hinv
    · split at h
      · exact Except.noConfusion h
      · exact Except.noConfusion h
      · rename_i mq
        split at h
        · exact Except.noConfusion h
        · exact Except.noConfusion h
        · rename_i ev
          injection h with h1
          obtain ⟨hlen, hmain⟩ := hinv
          have hev : ev ≠ 0 := fun h0 => her (by rw [h0])
          subst h1
          constructor
          · show (s.used_filters.set i 1).length = (s.mag_errs.set i ev).length
            rw [List.length_set, List.length_set]
            exact hlen
          · intro j hj
            have hj' : (s.used_filters.set i 1).getD j 0 = 1 := hj
            show (s.mag_errs.set i ev).getD j 0 ≠ 0
            by_cases hij : i = j
            · subst hij
              by_cases hlt : i < s.used_filters.length
              · have hlt2 : i < s.mag_errs.length := hlen ▸ hlt
                rw [getD_set_self _ _ _ _ hlt2]
                exact hev
              · rw [List.set_eq_of_length_le (Nat.le_of_not_lt hlt)] at hj'
                rw [List.getD_eq_default _ _ (Nat.le_of_not_lt hlt)] at hj'
                exact absurd hj' (by decide)
            · rw [getD_set_ne _ _ _ _ _ hij]
              apply hmain
              rw [getD_set_ne _ _ _ _ _ hij] at hj'
              exact hj'

theorem errInv_retrieve (rows : Table) :
    ∀ (ts : List Triple) (s s2 : Librarian) (rest : List Triple),
      retrieve_from_cat rows s ts = Except.ok (s2, rest) →
      ErrInv s → ErrInv s2 := by
  intro ts
  induction ts with
  | nil =>
    intro s s2 rest h hinv
    unfold retrieve_from_cat at h
    injection h with h1
    injection h1 with ha hb
    subst ha
    exact hinv
  | cons t rest2 ih =>
    intro s s2 rest h hinv
    unfold retrieve_from_cat at h
    by_cases hu : bandUsed s t.f = true
    · rw [if_pos hu] at h
      injection h with h1
      injection h1 with ha hb
      subst ha
      exact hinv
    · rw [if_neg hu] at h
      by_cases h1 : colCell rows t.m = Cell.masked
      · rw [if_pos h1] at h
        injection h with h2
        injection h2 with ha hb
        subst ha
        exact errInv_emit _ _ hinv
      · rw [if_neg h1] at h
        by_cases h2 : colCell rows t.e = Cell.masked
        · rw [if_pos h2] at h
          injection h with h3
          injection h3 with ha hb
          subst ha
          exact errInv_emit _ _ hinv
        · rw [if_neg h2] at h
          by_cases h3 : colCell rows t.e = Cell.val 0
          · rw [if_pos h3] at h
            injection h with h4
            injection h4 with ha hb
            subst ha
            exact errInv_emit _ _ hinv
          · rw [if_neg h3] at h
            cases ham : add_mags s (colCell rows t.m) (colCell rows t.e) t.f with
            | error m =>
              rw [ham] at h
              exact Except.noConfusion h
            | ok s3 =>
              rw [ham] at h
              exact ih s3 s2 rest h (errInv_add_mags s _ _ t.f s3 h3 ham hinv)

theorem liftStep_ok (x : Except String (Librarian × List Triple))
    (g : List Triple → Catalogs) (s2 : Librarian) (cfg2 : Catalogs)
    (h : liftStep x g = Except.ok (s2, cfg2)) :
    ∃ rest, x = Except.ok (s2, rest) ∧ cfg2 = g rest := by
  cases x with
  | error m => exact Except.noConfusion h
  | ok p =>
    obtain ⟨s1, rest⟩ := p
    unfold liftStep at h
    injection h with h1
    injection h1 with ha hb
    subst ha
    exact ⟨rest, rfl, hb.symm⟩

theorem andThen_ok (x : Except String (Librarian × Catalogs))
    (f : Librarian → Catalogs → Except String (Librarian × Catalogs))
    (y : Librarian × Catalogs) (h : andThen x f = Except.ok y) :
    ∃ s1 cfg1, x = Except.ok (s1, cfg1) ∧ f s1 cfg1 = Except.ok y := by
  cases x with
  | error m => exact Except.noConfusion h
  | ok p =>
    obtain ⟨s1, cfg1⟩ := p
    exact ⟨s1, cfg1, rfl, h⟩

theorem errInv_dispatch (s : Librarian) (cname key idv : String)
    (resp : String → Option Table)
    (act : Librarian → Table → List Triple →
      Except String (Librarian × List Triple))
    (ts : List Triple) (s2 : Librarian) (rest : List Triple)
    (hact : ∀ (s : Librarian) (cat : Table) (ts : List Triple)
      (s2 : Librarian) (rest : List Triple),
      act s cat ts = Except.ok (s2, rest) → ErrInv s → ErrInv s2)
    (h : dispatchCat s cname key idv resp act ts = Except.ok (s2, rest))
    (hinv : ErrInv s) : ErrInv s2 := by
  unfold dispatchCat at h
  by_cases h1 : idv = "skipped"
  · rw [if_pos h1] at h
    injection h with h2
    injection h2 with ha hb
    subst ha
    exact hinv
  · rw [if_neg h1] at h
    cases hr : resp key with
    | none =>
      rw [hr] at h
      injection h with h2
      injection h2 with ha hb
      rw [← ha]
      exact errInv_emit _ _ hinv
    | some cat =>
      rw [hr] at h
      exact hact s cat ts s2 rest h hinv

theorem errInv_get_ascc (idv : String) (s : Librarian) (cat : Table)
    (ts : List Triple) (s2 : Librarian) (rest : List Triple)
    (h : get_ascc s idv cat ts = Except.ok (s2, rest)) (hinv : ErrInv s) :
    ErrInv s2 := by
  unfold get_ascc at h
  rcases hsp : splitDash idv with _ | ⟨a, _ | ⟨b, _ | ⟨c, _ | ⟨d, tl⟩⟩⟩⟩
  · rw [hsp] at h
    exact Except.noConfusion h
  · rw [hsp] at h
    exact Except.noConfusion h
  · rw [hsp] at h
    exact Except.noConfusion h
  · rw [hsp] at h
    exact errInv_retrieve _ _ _ _ _ h hinv
  · rw [hsp] at h
    exact Except.noConfusion h

theorem errInv_asccStep (s : Librarian) (cfg : Catalogs) (ids : Ids)
    (resp : String → Option Table) (s2 : Librarian) (cfg2 : Catalogs)
    (h : asccStep s cfg ids resp = Except.ok (s2, cfg2)) (hinv : ErrInv s) :
    ErrInv s2 := by
  unfold asccStep at h
  obtain ⟨rest, hx, -⟩ := liftStep_ok _ _ _ _ h
  exact errInv_dispatch _ _ _ _ _ _ _ _ _
    (fun sa cat tsa s2a resta ha hia =>
      errInv_get_ascc ids.ascc sa cat tsa s2a resta ha hia) hx hinv

theorem errInv_apassStep (s : Librarian) (cfg : Catalogs) (ids : Ids)
    (resp : String → Option Table) (s2 : Librarian) (cfg2 : Catalogs)
    (h : apassStep s cfg ids resp = Except.ok (s2, cfg2)) (hinv : ErrInv s) :
    ErrInv s2 := by
  unfold apassStep at h
  obtain ⟨rest, hx, -⟩ := liftStep_ok _ _ _ _ h
  exact errInv_dispatch _ _ _ _ _ _ _ _ _
    (fun sa cat tsa s2a resta ha hia =>
      errInv_retrieve _ _ _ _ _ ha hia) hx hinv

theorem errInv_wiseStep (s : Librarian) (cfg : Catalogs) (ids : Ids)
    (resp : String → Option Table) (s2 : Librarian) (cfg2 : Catalogs)
    (h : wiseStep s cfg ids resp = Except.ok (s2, cfg2)) (hinv : ErrInv s) :
    ErrInv s2 := by
  unfold wiseStep at h
  obtain ⟨rest, hx, -⟩ := liftStep_ok _ _ _ _ h
  exact errInv_dispatch _ _ _ _ _ _ _ _ _
    (fun sa cat tsa s2a resta ha hia =>
      errInv_retrieve _ _ _ _ _ ha hia) hx hinv

theorem errInv_ps1Step (s : Librarian) (cfg : Catalogs) (ids : Ids)
    (resp : String → Option Table) (s2 : Librarian) (cfg2 : Catalogs)
    (h : ps1Step s cfg ids resp = Except.ok (s2, cfg2)) (hinv : ErrInv s) :
    ErrInv s2 := by
  unfold ps1Step at h
  obtain ⟨rest, hx, -⟩ := liftStep_ok _ _ _ _ h
  exact errInv_dispatch _ _ _ _ _ _ _ _ _
    (fun sa cat tsa s2a resta ha hia =>
      errInv_retrieve _ _ _ _ _ ha hia) hx hinv

theorem errInv_gaiaStep (s : Librarian) (cfg : Catalogs) (ids : Ids)
    (resp : String → Option Table) (s2 : Librarian) (cfg2 : Catalogs)
    (h : gaiaStep s cfg ids resp = Except.ok (s2, cfg2)) (hinv : ErrInv s) :
    ErrInv s2 := by
  unfold gaiaStep at h
  obtain ⟨rest, hx, -⟩ := liftStep_ok _ _ _ _ h
  exact errInv_dispatch _ _ _ _ _ _ _ _ _
    (fun sa cat tsa s2a resta ha hia =>
      errInv_retrieve _ _ _ _ _ ha hia) hx hinv

theorem errInv_tmassStep (s : Librarian) (cfg : Catalogs) (ids : Ids)
    (resp : String → Option Table) (s2 : Librarian) (cfg2 : Catalogs)
    (h : tmassStep s cfg ids resp = Except.ok (s2, cfg2)) (hinv : ErrInv s) :
    ErrInv s2 := by
  unfold tmassStep at h
  obtain ⟨rest, hx, -⟩ := liftStep_ok _ _ _ _ h
  refine errInv_dispatch _ _ _ _ _ _ _ _ _
    (fun sa cat tsa s2a resta ha hia => ?_) hx hinv
  injection ha with ha1
  injection ha1 with haa hab
  subst haa
  exact hia

theorem errInv_sdssStep (s : Librarian) (cfg : Catalogs) (ids : Ids)
    (resp : String → Option Table) (s2 : Librarian) (cfg2 : Catalogs)
    (h : sdssStep s cfg ids resp = Except.ok (s2, cfg2)) (hinv : ErrInv s) :
    ErrInv s2 := by
  unfold sdssStep at h
  obtain ⟨rest, hx, -⟩ := liftStep_ok _ _ _ _ h
  exact errInv_dispatch _ _ _ _ _ _ _ _ _
    (fun sa cat tsa s2a resta ha hia =>
      errInv_retrieve _ _ _ _ _ ha hia) hx hinv

theorem errInv_galexStep (s : Librarian) (cfg : Catalogs)
    (resp : String → Option Table) (s2 : Librarian) (cfg2 : Catalogs)
    (h : galexStep s cfg resp = Except.ok (s2, cfg2)) (hinv : ErrInv s) :
    ErrInv s2 := by
  unfold galexStep at h
  injection h with h1
  injection h1 with ha hb
  rw [← ha]
  by_cases hv : s.verbose = true
  · rw [if_pos hv]
    exact errInv_emit _ _ hinv
  · rw [if_neg hv]
    exact hinv

/-- C3 (amended): in any normally terminating run started from the freshly
zero-initialised state, every band whose `used` flag ends at 1 carries a
nonzero — though not necessarily strictly positive — error, because the
validator rejects exactly the masked and exactly-zero error values and
nothing else. -/
theorem used_err_nonzero (v : Bool) (cfg : Catalogs) (ids : Ids)
    (resp : String → Option Table) (s2 : Librarian) (cfg2 : Catalogs)
    (h : get_magnitudes (initLib v) cfg ids resp = Except.ok (s2, cfg2)) :
    ∀ i, s2.used_filters.getD i 0 = 1 → s2.mag_errs.getD i 0 ≠ 0 := by
  unfold get_magnitudes at h
  obtain ⟨sA, cA, h1, h⟩ := andThen_ok _ _ _ h
  obtain ⟨sB, cB, h2, h⟩ := andThen_ok _ _ _ h
  obtain ⟨sC, cC, h3, h⟩ := andThen_ok _ _ _ h
  obtain ⟨sD, cD, h4, h⟩ := andThen_ok _ _ _ h
  obtain ⟨sE, cE, h5, h⟩ := andThen_ok _ _ _ h
  obtain ⟨sF, cF, h6, h⟩ := andThen_ok _ _ _ h
  obtain ⟨sG, cG, h7, h⟩ := andThen_ok _ _ _ h
  have i0 := errInv_init v
  have i1 := errInv_asccStep _ _ _ _ _ _ h1 i0
  have i2 := errInv_apassStep _ _ _ _ _ _ h2 i1
  have i3 := errInv_wiseStep _ _ _ _ _ _ h3 i2
  have i4 := errInv_ps1Step _ _ _ _ _ _ h4 i3
  have i5 := errInv_gaiaStep _ _ _ _ _ _ h5 i4
  have i6 := errInv_tmassStep _ _ _ _ _ _ h6 i5
  have i7 := errInv_sdssStep _ _ _ _ _ _ h7 i6
  have i8 := errInv_galexStep _ _ _ _ _ h i7
  exact i8.2

/-- Witness for `used_err_nonzero`: the Gaia-only fixture run populates
band 6, and its stored error is nonzero. -/
theorem used_err_nonzero_witness : libA.mag_errs.getD 6 0 ≠ 0 :=
  used_err_nonzero false initCatalogs idsC5 respC5 libA cfgA rfl 6 (by decide)

/-- A row with a present magnitude and a strictly negative error. -/
def rowC3 : TableRow :=
  { ident := fun _ => "",
    data := fun c =>
      if c = "W1mag" then some 10 else if c = "e_W1mag" then some (-1)
      else none }

/-- The single WISE W1 triple. -/
def tsC3 : List Triple := [⟨"W1mag", "e_W1mag", "WISE_RSR_W1"⟩]

/-- The state after accepting the negative-error triple: band 20
(`WISE_RSR_W1`) is used and its stored error is -1. -/
def sC3 : Librarian :=
  { used_filters := (List.replicate 24 0).set 20 1,
    mags := (List.replicate 24 (0 : ℚ)).set 20 10,
    mag_errs := (List.replicate 24 (0 : ℚ)).set 20 (-1),
    verbose := true, warnings := [] }

/-- Counterexample to C3 as stated: the validator tests only `err == 0`, so
a strictly negative error value is accepted and merged — the final vector
has the band used with a negative stored error, refuting `error > 0`. -/
theorem negative_error_accepted_cx :
    retrieve_from_cat [rowC3] (initLib true) tsC3 = Except.ok (sC3, []) ∧
    sC3.used_filters.getD 20 0 = 1 ∧ sC3.mag_errs.getD 20 0 < 0 := by
  exact ⟨rfl, by decide, by decide⟩

end AstroARIADNE
